import Mathlib

/-!
Verification of the portracker collection/reconciliation engine.

The definitions below are a shallow embedding of the TrueNAS collector
(`collect`, `_getSystemPorts`, `_getDockerPorts`, `_buildHostProcToContainerMap`,
`_enhanceKnownPort`, the reconciliation loop and the protocol filter) and of the
proc-filesystem parser (`_parseHexAddress`).  JavaScript objects become
structures, `Map` becomes an association list with JavaScript `Map.set`
semantics (replace in place, keep position, else append), `undefined`/`null`
become `Option.none`, and JavaScript truthiness of the relevant fields is
modelled explicitly (`0`, `""`, `null`, `undefined` are falsy).
-/

set_option maxRecDepth 8192

namespace Portracker

/-- JavaScript truthiness of an optional string field (absent or empty is falsy). -/
def strTruthy : Option String → Bool
  | none => false
  | some s => s != ""

/-- JavaScript truthiness of an optional numeric pid field (absent or 0 is falsy). -/
def pidTruthy : Option Nat → Bool
  | none => false
  | some n => n != 0

/-- Models the JavaScript pattern `expr || null`: a falsy value (absent or the
empty string) collapses to `null`. -/
def orNullS : Option String → Option String
  | none => none
  | some s => if s = "" then none else some s

/-- JavaScript `Map.get` over an association list (first matching key). -/
def alookup {κ α : Type} [BEq κ] : List (κ × α) → κ → Option α
  | [], _ => none
  | e :: es, k => bif e.1 == k then some e.2 else alookup es k

/-- Predicate form of `Option` emptiness used when modelling `map.get(k) ?? act`. -/
def optAny {α : Type} (o : Option α) (f : α → Bool) : Bool :=
  match o with
  | some a => f a
  | none => false

/-! ## The proc-parser hex address parser (`proc-parser.js`, `_parseHexAddress`) -/

/-- Hex digit value as `parseInt(_, 16)` reads it (both letter cases accepted;
characters that are not hex digits never occur on the round-trip path). -/
def hexCharVal (c : Char) : Nat :=
  if c = '0' then 0 else if c = '1' then 1 else if c = '2' then 2
  else if c = '3' then 3 else if c = '4' then 4 else if c = '5' then 5
  else if c = '6' then 6 else if c = '7' then 7 else if c = '8' then 8
  else if c = '9' then 9
  else if c = 'a' ∨ c = 'A' then 10 else if c = 'b' ∨ c = 'B' then 11
  else if c = 'c' ∨ c = 'C' then 12 else if c = 'd' ∨ c = 'D' then 13
  else if c = 'e' ∨ c = 'E' then 14 else if c = 'f' ∨ c = 'F' then 15
  else 0

/-- Value of a two-hex-digit substring, as `parseInt(hex.substr(i, 2), 16)`. -/
def pairVal (c1 c2 : Char) : Nat := hexCharVal c1 * 16 + hexCharVal c2

/-- Body of `_parseHexAddress` on the character list of its argument.  The
source checks `hex === '00000000'`, then `hex.length === 8` (reading byte pairs
at offsets 6, 4, 2, 0 and joining with dots), then `hex.length === 32`
(always returning `::`), and falls back to `0.0.0.0`. -/
def parseHexList (cs : List Char) : String :=
  if cs = ['0', '0', '0', '0', '0', '0', '0', '0'] then "0.0.0.0"
  else
    match cs with
    | [x0, x1, x2, x3, x4, x5, x6, x7] =>
        toString (pairVal x6 x7) ++ "." ++ toString (pairVal x4 x5) ++ "." ++
          toString (pairVal x2 x3) ++ "." ++ toString (pairVal x0 x1)
    | _ => if cs.length = 32 then "::" else "0.0.0.0"

/-- The enumerator's hex local-address parser, `_parseHexAddress`. -/
def parseHexAddress (s : String) : String := parseHexList s.data

/-- Modelled from the spec: the kernel's standard 8-hex-digit little-endian
formatter for an IPv4 address `a.b.c.d` (the counterpart the spec's round-trip
property refers to; it is the format of the local-address column of
`/proc/net/tcp`, not code of this repository).  Bytes appear in reverse order,
each as two uppercase hex digits. -/
def hexDigitUpper (n : Nat) : Char :=
  if n = 0 then '0' else if n = 1 then '1' else if n = 2 then '2'
  else if n = 3 then '3' else if n = 4 then '4' else if n = 5 then '5'
  else if n = 6 then '6' else if n = 7 then '7' else if n = 8 then '8'
  else if n = 9 then '9' else if n = 10 then 'A' else if n = 11 then 'B'
  else if n = 12 then 'C' else if n = 13 then 'D' else if n = 14 then 'E'
  else 'F'

/-- Modelled from the spec: the two uppercase hex digits of one byte. -/
def byteHexChars (b : Nat) : List Char := [hexDigitUpper (b / 16), hexDigitUpper (b % 16)]

/-- Modelled from the spec: `formatHex` for the IPv4 address `a.b.c.d`. -/
def formatHexIPv4 (a b c d : Nat) : String :=
  String.mk (byteHexChars d ++ byteHexChars c ++ byteHexChars b ++ byteHexChars a)

/-- Dotted-quad decimal rendering of the four address bytes (what
`bytes.join('.')` produces in the source). -/
def ipv4Str (a b c d : Nat) : String :=
  toString a ++ "." ++ toString b ++ "." ++ toString c ++ "." ++ toString d

theorem pairVal_byteHex : ∀ x < 256, pairVal (hexDigitUpper (x / 16)) (hexDigitUpper (x % 16)) = x := by
  decide

theorem byteHex_zero : ∀ x < 256,
    hexDigitUpper (x / 16) = '0' → hexDigitUpper (x % 16) = '0' → x = 0 := by
  decide

/-- Claim C7: for every IPv4 address, the enumerator's hex local-address parser
inverts the kernel's 8-hex-digit little-endian formatter, and the all-zero
address parses to `0.0.0.0`. -/
theorem c7_hex_parser_inverts_formatter (a b c d : Nat)
    (ha : a < 256) (hb : b < 256) (hc : c < 256) (hd : d < 256) :
    parseHexAddress (formatHexIPv4 a b c d) = ipv4Str a b c d ∧
      parseHexAddress "00000000" = "0.0.0.0" := by
  constructor
  · show parseHexList (byteHexChars d ++ byteHexChars c ++ byteHexChars b ++ byteHexChars a) = _
    simp only [byteHexChars, List.cons_append, List.nil_append]
    by_cases h0 : ([hexDigitUpper (d / 16), hexDigitUpper (d % 16),
        hexDigitUpper (c / 16), hexDigitUpper (c % 16),
        hexDigitUpper (b / 16), hexDigitUpper (b % 16),
        hexDigitUpper (a / 16), hexDigitUpper (a % 16)] : List Char) =
        ['0', '0', '0', '0', '0', '0', '0', '0']
    · simp only [List.cons.injEq, and_true] at h0
      obtain ⟨e1, e2, e3, e4, e5, e6, e7, e8⟩ := h0
      have hd0 := byteHex_zero d hd e1 e2
      have hc0 := byteHex_zero c hc e3 e4
      have hb0 := byteHex_zero b hb e5 e6
      have ha0 := byteHex_zero a ha e7 e8
      subst hd0; subst hc0; subst hb0; subst ha0
      decide
    · unfold parseHexList
      rw [if_neg h0]
      show toString (pairVal (hexDigitUpper (a / 16)) (hexDigitUpper (a % 16))) ++ "." ++
          toString (pairVal (hexDigitUpper (b / 16)) (hexDigitUpper (b % 16))) ++ "." ++
          toString (pairVal (hexDigitUpper (c / 16)) (hexDigitUpper (c % 16))) ++ "." ++
          toString (pairVal (hexDigitUpper (d / 16)) (hexDigitUpper (d % 16))) = _
      rw [pairVal_byteHex a ha, pairVal_byteHex b hb, pairVal_byteHex c hc, pairVal_byteHex d hd]
      rfl
  · decide

/-- Witness for C7 at the concrete address 192.168.1.10 (and the all-zero case). -/
theorem c7_witness :
    parseHexAddress (formatHexIPv4 192 168 1 10) = ipv4Str 192 168 1 10 ∧
      parseHexAddress "00000000" = "0.0.0.0" :=
  c7_hex_parser_inverts_formatter 192 168 1 10 (by decide) (by decide) (by decide) (by decide)

/-! ## Port records and the dedup map (`collect`, part_001) -/

/-- Value of the JavaScript `target` field, which the source variously sets to
`null`, a string (published: the container port string; internal:
`"<short_id>:<port>(internal)"`), or a number (`port.target = port.host_port`
on promotion and self-attribution). -/
inductive Target where
  | null : Target
  | str : String → Target
  | num : Nat → Target
deriving DecidableEq, Repr

/-- Container id/name pair as stored in `pidToContainerMap` and
`hostProcToContainerMap` (`{ id, name }`). -/
structure CInfo where
  id : String
  name : String
deriving DecidableEq, Repr

/-- A port object as it flows through `collect`'s reconciliation.  Docker-port
objects carry no `pid`/`pids`; the system-port objects built by
`_getSystemPorts` carry `pids` (an array) and no `pid`; absent fields are
`none`/`[]`/`false`. -/
structure PortEntry where
  source : String
  owner : String
  protocol : String
  host_ip : String
  host_port : Nat
  target : Target := Target.null
  container_id : Option String := none
  vm_id : Option String := none
  app_id : Option String := none
  pid : Option Nat := none
  pids : List Nat := []
  internal : Bool := false
  created : Option String := none
deriving DecidableEq, Repr

/-- The `uniquePorts` JavaScript `Map`, as an association list in insertion
order. -/
abbrev PMap := List (String × PortEntry)

/-- JavaScript `Map.get`. -/
def mapGet? : PMap → String → Option PortEntry
  | [], _ => none
  | e :: es, k => if e.1 = k then some e.2 else mapGet? es k

/-- JavaScript `Map.has`. -/
def mapHas (m : PMap) (k : String) : Bool := (mapGet? m k).isSome

/-- JavaScript `Map.set`: replace the value in place if the key exists
(keeping its position), otherwise append. -/
def mapSet : PMap → String → PortEntry → PMap
  | [], k, v => [(k, v)]
  | e :: es, k, v => if e.1 = k then (k, v) :: es else e :: mapSet es k v

/-- In-place mutation of the object stored at a key (JavaScript
`map.get(k)` followed by field assignments). -/
def mapUpdate : PMap → String → (PortEntry → PortEntry) → PMap
  | [], _, _ => []
  | e :: es, k, f => if e.1 = k then (e.1, f e.2) :: es else e :: mapUpdate es k f

/-- JavaScript `Map.values()` in insertion order. -/
def mapValues (m : PMap) : List PortEntry := m.map (fun e => e.2)

/-- String interpolation of a possibly-absent id (JavaScript renders `null`
inside a template literal as the text `null`). -/
def optIdStr : Option String → String
  | some s => s
  | none => "null"

/-- Dedup key of the seeding phase: `"<container_id>:<host_port>:internal"`
for internal ports, `"<host_ip>:<host_port>"` otherwise. -/
def dedupKey (p : PortEntry) : String :=
  if p.internal then optIdStr p.container_id ++ ":" ++ toString p.host_port ++ ":internal"
  else p.host_ip ++ ":" ++ toString p.host_port

/-- Key used for a system port in the merge phase: `"<host_ip>:<host_port>"`. -/
def sysKey (p : PortEntry) : String := p.host_ip ++ ":" ++ toString p.host_port

/-- Seeding step for one Docker port:
`port.created = containerCreationTimeMap.get(port.container_id) || null`. -/
def seedPort (creations : List (String × String)) (p : PortEntry) : PortEntry :=
  { p with
    created := orNullS (match p.container_id with
      | some cid => alookup creations cid
      | none => none) }

/-- Seeding phase of the reconciler (`for (const port of dockerPorts) { ... uniquePorts.set(key, port) }`). -/
def seedDocker (creations : List (String × String)) (m : PMap) (ps : List PortEntry) : PMap :=
  ps.foldl (fun m p => mapSet m (dedupKey p) (seedPort creations p)) m

/-- Re-attribution and enrichment of one system port whose key is new
(`collect`, the body after the `uniquePorts.has(key)` early-`continue`).
`pidVal` is the JavaScript-truthy pid; the direct `pidToContainerMap` branch
wins over the `hostProcToContainerMap` branch, which additionally sets
`target`; `created` is finally overwritten from `processStartTimeMap` whenever
the pid is truthy. -/
def mergeSystemPort (pidToC hostProcToC : List (Nat × CInfo))
    (creations : List (String × String)) (startTimes : List (Nat × String))
    (port : PortEntry) : PortEntry :=
  let pidVal : Option Nat :=
    match port.pid with
    | some n => if n = 0 then none else some n
    | none => none
  let direct : Option CInfo :=
    match pidVal with
    | some n => alookup pidToC n
    | none => none
  let hostp : Option CInfo :=
    match direct with
    | some _ => none
    | none =>
      match pidVal with
      | some n => alookup hostProcToC n
      | none => none
  let port :=
    match direct with
    | some _ => { port with source := "docker" }
    | none =>
      match hostp with
      | some _ => { port with source := "docker", target := Target.num port.host_port }
      | none => port
  let cinfo : Option CInfo :=
    match direct with
    | some i => some i
    | none => hostp
  let port :=
    match cinfo with
    | some info => { port with owner := info.name }
    | none => port
  let port :=
    match cinfo with
    | some info =>
      if info.id ≠ "" then
        { port with
          container_id := some info.id
          app_id := some info.id
          created := orNullS (alookup creations info.id) }
      else port
    | none => port
  match pidVal with
  | some n => { port with created := orNullS (alookup startTimes n) }
  | none => port

/-- Merge phase of the reconciler over the system ports: an existing key only
gets its `pid` filled when falsy (`if (!existingPort.pid) existingPort.pid = port.pid`);
a new key is inserted after `mergeSystemPort`. -/
def mergeSystem (pidToC hostProcToC : List (Nat × CInfo))
    (creations : List (String × String)) (startTimes : List (Nat × String))
    (m : PMap) (ps : List PortEntry) : PMap :=
  ps.foldl (fun m p =>
    let key := sysKey p
    if mapHas m key then
      mapUpdate m key (fun ex => if pidTruthy ex.pid then ex else { ex with pid := p.pid })
    else
      mapSet m key (mergeSystemPort pidToC hostProcToC creations startTimes p)) m

/-- Self-attribution of the agent's own port (`collect`, the
`self-container-attribution` loop).  The result of the container-list search
for a container named `portracker` is a parameter (`pc`), as is the agent's
own port. -/
def selfAttrOne (ourPort : Nat) (pc : Option CInfo)
    (creations : List (String × String)) (p : PortEntry) : PortEntry :=
  if p.host_port = ourPort ∧ (p.owner = "node" ∨ p.owner = "system") ∧ p.source = "system" then
    match pc with
    | some info =>
      { p with
        source := "docker"
        owner := info.name
        container_id := some info.id
        app_id := some info.id
        target := Target.num p.host_port
        created :=
          match orNullS (alookup creations info.id) with
          | some s => some s
          | none => p.created }
    | none => p
  else p

/-- Self-attribution applied to every value of the dedup map. -/
def selfAttribute (ourPort : Nat) (pc : Option CInfo)
    (creations : List (String × String)) (m : PMap) : PMap :=
  m.map (fun e => (e.1, selfAttrOne ourPort pc creations e.2))

/-! ## Known-port registries, enhancement and the protocol filter -/

/-- Entry of `this.importantPorts` (service name and protocol). -/
structure SvcInfo where
  service : String
  protocol : String
deriving DecidableEq, Repr

/-- The collector's `importantPorts` registry (TrueNAS collector constructor). -/
def importantPorts : List (Nat × SvcInfo) :=
  [(51820, ⟨"WireGuard", "udp"⟩), (51821, ⟨"WireGuard-UI", "tcp"⟩),
   (51822, ⟨"WireGuard", "udp"⟩), (500, ⟨"IPsec IKE", "udp"⟩),
   (4500, ⟨"IPsec NAT-T", "udp"⟩), (1194, ⟨"OpenVPN", "udp"⟩),
   (1198, ⟨"OpenVPN", "udp"⟩), (53, ⟨"DNS", "udp"⟩),
   (67, ⟨"DHCP", "udp"⟩), (68, ⟨"DHCP", "udp"⟩)]

/-- The collector's `importantUdpPorts` registry (TrueNAS collector constructor);
values are the service-name strings whose JavaScript truthiness the filter
tests. -/
def importantUdpPorts : List (Nat × String) :=
  [(51820, "WireGuard"), (51822, "WireGuard"), (500, "IPsec IKE"),
   (4500, "IPsec NAT-T"), (1194, "OpenVPN"), (1198, "OpenVPN"),
   (53, "DNS"), (67, "DHCP"), (68, "DHCP")]

/-- The spec's canonical known-UDP allow-list (§6), used to state claim C6. -/
def specUdpAllowList : List Nat :=
  [53, 67, 68, 123, 137, 138, 161, 162, 500, 514, 1194, 1198, 4500, 51820, 51821, 51822]

/-- An application entry of `results.applications` as read by
`_enhanceKnownPort` (`name`, `image`, `id`, `created`). -/
structure AppInfo where
  id : String
  name : String
  image : Option String := none
  created : Option String := none
deriving DecidableEq, Repr

/-- Character-list test: does the first list start with the second. -/
def startsWithL : List Char → List Char → Bool
  | _, [] => true
  | [], _ :: _ => false
  | h :: hs, n :: ns => h == n && startsWithL hs ns

/-- Character-list test: does the second list occur inside the first. -/
def occursL : List Char → List Char → Bool
  | [], needle => needle.isEmpty
  | h :: hs, needle => startsWithL (h :: hs) needle || occursL hs needle

/-- JavaScript `String.prototype.includes` (substring test). -/
def containsSub (hay needle : String) : Bool := occursL hay.data needle.data

/-- JavaScript `String.prototype.toLowerCase` on the ASCII names involved. -/
def lowerStr (s : String) : String := s.toLower

/-- The WireGuard fuzzy-match filter of `_enhanceKnownPort`. -/
def wgCandidate (a : AppInfo) : Bool :=
  containsSub (lowerStr a.name) "wireguard" || containsSub (lowerStr a.name) "wg-" ||
    containsSub (lowerStr a.name) "wg_" ||
    optAny a.image (fun im => containsSub (lowerStr im) "wireguard") ||
    optAny a.image (fun im => containsSub (lowerStr im) "wg-easy")

/-- The field assignments shared by both promotion branches of
`_enhanceKnownPort`. -/
def promoteToApp (x : AppInfo) (created : Option String) (p : PortEntry) : PortEntry :=
  { p with
    source := "docker"
    container_id := some x.id
    app_id := some x.id
    owner := x.name
    target := Target.num p.host_port
    created := created }

/-- Model of `_enhanceKnownPort`: for a known service port that is a WireGuard service,
fuzzy-match the application list; a unique match is promoted (with
`created = container.created || null`, since `this.containerCreationTimeMap`
is never assigned on the collector); several matches prefer an exact
`wg-easy`/`wireguard` name before the first candidate. -/
def enhanceKnownPort (apps : List AppInfo) (p : PortEntry) : PortEntry :=
  match alookup importantPorts p.host_port with
  | none => p
  | some si =>
    if si.service = "WireGuard" ∨ si.service = "WireGuard-UI" then
      match apps.filter wgCandidate with
      | [c] => promoteToApp c (orNullS c.created) p
      | c :: rest =>
        let best :=
          match (c :: rest).find? (fun x => x.name = "wg-easy" || x.name = "wireguard") with
          | some x => x
          | none => c
        promoteToApp best best.created p
      | [] => p
    else p

/-- One evaluation of the emission filter predicate (`collect`,
`port-filtering`), which mutates the port object as a side effect; the result
is the kept/dropped decision together with the possibly-mutated port. -/
def filterStep (includeSystemUdp : Bool) (apps : List AppInfo) (p : PortEntry) :
    Bool × PortEntry :=
  if p.protocol = "tcp" then
    let p' :=
      if optAny (alookup importantPorts p.host_port) (fun si => si.protocol == "tcp") &&
          (p.source == "system") && !(strTruthy p.container_id) then
        enhanceKnownPort apps p
      else p
    (true, p')
  else if p.source = "docker" then (true, p)
  else if p.protocol = "udp" ∧ optAny (alookup importantUdpPorts p.host_port) (fun s => s != "") then
    let p' :=
      if (p.source == "system") && !(strTruthy p.container_id) then enhanceKnownPort apps p
      else p
    (true, p')
  else if p.protocol = "udp" ∧ p.source = "system" then (includeSystemUdp, p)
  else (false, p)

/-- Modelled from the spec: `normalizePortEntry` is defined in the base
collector, which is not among the provided sources; per §4.7 step 6 the
normalization maps a `*` host address to `0.0.0.0` and leaves the record
otherwise unchanged. -/
def normalizePortEntry (p : PortEntry) : PortEntry :=
  { p with host_ip := if p.host_ip = "*" then "0.0.0.0" else p.host_ip }

/-- The inputs consumed by one run of the reconciliation section of `collect`.
The self-attribution container lookup (`containers.find(c => c.Names.includes('portracker'))`)
and the agent's own port (`process.env.PORT || "4999"`) are inputs because the
source obtains them from the environment during the loop. -/
structure RecInput where
  dockerPorts : List PortEntry
  systemPorts : List PortEntry
  pidToC : List (Nat × CInfo)
  hostProcToC : List (Nat × CInfo)
  creations : List (String × String)
  startTimes : List (Nat × String)
  ourPort : Nat
  portrackerC : Option CInfo
  apps : List AppInfo
  includeSystemUdp : Bool
deriving Repr

/-- The dedup map at the end of the reconciliation loops (seed, merge,
self-attribution). -/
def finalMap (i : RecInput) : PMap :=
  selfAttribute i.ourPort i.portrackerC i.creations
    (mergeSystem i.pidToC i.hostProcToC i.creations i.startTimes
      (seedDocker i.creations [] i.dockerPorts) i.systemPorts)

/-- The emitted port list: `Array.from(uniquePorts.values()).filter(...).map(normalizePortEntry)`,
with the filter's side-effecting mutation applied to the surviving records. -/
def reconcile (i : RecInput) : List PortEntry :=
  ((mapValues (finalMap i)).map (filterStep i.includeSystemUdp i.apps)).filterMap
    (fun r => if r.1 then some (normalizePortEntry r.2) else none)

/-! ## System port construction (`_getSystemPorts`) -/

/-- A raw listener row as produced by the proc parser (`getTcpPorts` /
`getUdpPorts`): `{ protocol, host_ip, host_port, inode, pid, owner }`. -/
structure Listener where
  protocol : String
  host_ip : String
  host_port : Nat
  inode : Nat
  pid : Option Nat := none
  owner : String
deriving DecidableEq, Repr

/-- The mapping `_getSystemPorts` applies to each parsed listener.  Note that
the listener's pid is stored only in the `pids` array
(`pids: port.pid ? [port.pid] : []`); no `pid` field is set on the resulting
object. -/
def mkSystemPort (l : Listener) : PortEntry :=
  { source := "system"
    owner := l.owner
    protocol := l.protocol
    host_ip := if l.host_ip = "*" then "0.0.0.0" else l.host_ip
    host_port := l.host_port
    target := Target.null
    container_id := none
    app_id := none
    pids :=
      match l.pid with
      | some n => if n = 0 then [] else [n]
      | none => [] }

/-- The pid list `collect` extracts from the system ports to query `ps`
for start times (`systemPorts.map((p) => p.pid).filter(Boolean)`, deduplicated). -/
def psPids (ports : List PortEntry) : List Nat :=
  (ports.filterMap (fun p =>
    match p.pid with
    | some n => if n = 0 then none else some n
    | none => none)).dedup

/-! ## Docker port extraction (`_getDockerPorts`) -/

/-- One element of a `HostConfig`/`NetworkSettings` binding array
(`{ HostIp, HostPort }`); the port string is modelled by its numeric value. -/
structure HostBinding where
  hostIp : Option String := none
  hostPort : Nat
deriving DecidableEq, Repr

/-- One entry of `NetworkSettings.Ports`, with the `"<port>/<proto>"` key
modelled pre-split; `bindings = none` models a `null` value under the key. -/
structure PBEntry where
  containerPort : Nat
  protocol : String
  bindings : Option (List HostBinding)
deriving DecidableEq, Repr

/-- One key of `Config.ExposedPorts`, modelled pre-split. -/
structure EPEntry where
  port : Nat
  protocol : String
deriving DecidableEq, Repr

/-- A container as `_getDockerPorts` consumes it: the list entry (id, names and
whether `container.Ports` is non-empty) together with the outcomes of its two
inspections, either of which can fail. -/
structure ContainerIn where
  id : String
  names : List String
  listPortsNonEmpty : Bool
  rawInspect : Except String (List PBEntry)
  cfgInspect : Except String (List EPEntry)
deriving Repr

/-- Model of `_formatContainerNames` for the array case (join with a comma). -/
def formatContainerNames (names : List String) : String := String.intercalate ", " names

/-- Model of `_resolveHostIP`. -/
def resolveHostIP (ip : String) : String :=
  if ip = "0.0.0.0" ∨ ip = "::" then ip
  else if ip = "*" then "0.0.0.0"
  else if ip = "127.0.0.1" ∨ ip = "localhost" then "127.0.0.1"
  else ip

/-- JavaScript `a || d` for an optional string (absent or empty falls back). -/
def jsOr (o : Option String) (d : String) : String :=
  match o with
  | some s => if s = "" then d else s
  | none => d

/-- Suffix test used for the broadcast-address skip (`hostIP.endsWith(".255")`). -/
def endsWithL (hay suf : List Char) : Bool := startsWithL hay.reverse suf.reverse

/-- The published-port loop body of `_getDockerPorts` for one container. -/
def extractPublished (name cid : String) (pbs : List PBEntry) : List PortEntry :=
  pbs.flatMap (fun e =>
    match e.bindings with
    | none => []
    | some bs =>
      bs.filterMap (fun hb =>
        let hostIP := resolveHostIP (jsOr hb.hostIp "0.0.0.0")
        if endsWithL hostIP.data ".255".data then none
        else
          some { source := "docker"
                 owner := name
                 protocol := if e.protocol = "" then "tcp" else e.protocol
                 host_ip := hostIP
                 host_port := hb.hostPort
                 target := Target.str (toString e.containerPort)
                 container_id := some cid
                 app_id := some cid }))

/-- Lookup of `portBindings[exposedPort]` (key present or not; value possibly null). -/
def findPB (pbs : List PBEntry) (port : Nat) (proto : String) : Option (Option (List HostBinding)) :=
  match pbs.find? (fun e => e.containerPort == port && e.protocol == proto) with
  | some e => some e.bindings
  | none => none

/-- The exposed-port loop of `_getDockerPorts` for one container: any exposed
port without a (non-null) binding becomes an internal record. -/
def extractInternal (name cid : String) (pbs : List PBEntry) (eps : List EPEntry) : List PortEntry :=
  eps.filterMap (fun ep =>
    let isPublished := optAny (findPB pbs ep.port ep.protocol) (fun bs => bs.isSome)
    if isPublished then none
    else
      some { source := "docker"
             owner := name
             protocol := if ep.protocol = "" then "tcp" else ep.protocol
             host_ip := "0.0.0.0"
             host_port := ep.port
             target := Target.str (String.take cid 12 ++ ":" ++ toString ep.port ++ "(internal)")
             container_id := some cid
             app_id := some cid
             internal := true })

/-- The per-container body of `_getDockerPorts`; a failure of either
inspection aborts it. -/
def processContainer (c : ContainerIn) : Except String (List PortEntry) := do
  let name := formatContainerNames c.names
  let pbs ← c.rawInspect
  let pub := if c.listPortsNonEmpty then extractPublished name c.id pbs else []
  let eps ← c.cfgInspect
  pure (pub ++ extractInternal name c.id pbs eps)

/-- The accumulation loop of `_getDockerPorts`: the whole function body sits in
one `try`/`catch`, so the first failing container discards everything and
returns the empty list. -/
def getDockerPortsGo : List PortEntry → List ContainerIn → List PortEntry
  | acc, [] => acc
  | acc, c :: cs =>
    match processContainer c with
    | Except.error _ => []
    | Except.ok rs => getDockerPortsGo (acc ++ rs) cs

/-- Model of `_getDockerPorts`. -/
def getDockerPorts (cs : List ContainerIn) : List PortEntry := getDockerPortsGo [] cs

/-! ## The collection report and the enhanced-features phase (`collect`) -/

/-- Payload of a successful `_collectEnhancedFeatures` run. -/
structure Enhanced where
  systemInfo : Option String := none
  apps : List AppInfo := []
  vms : List String := []
deriving Repr

/-- The `results` object of `collect` (payloads not relevant to the claims are
opaque strings). -/
structure Report where
  platform : String
  platformName : String
  systemInfo : Option String := none
  applications : List AppInfo := []
  ports : List PortEntry := []
  vms : List String := []
  error : Option String := none
  enhancedFeaturesEnabled : Bool
deriving Repr

/-- The initialization of `results` at the top of `collect`:
`enhancedFeaturesEnabled: !!process.env.TRUENAS_API_KEY`. -/
def initResults (apiKeyPresent : Bool) : Report :=
  { platform := "truenas", platformName := "TrueNAS", enhancedFeaturesEnabled := apiKeyPresent }

/-- The core phases filling `results.applications` and `results.ports`. -/
def withCoreData (r : Report) (apps : List AppInfo) (ports : List PortEntry) : Report :=
  { r with applications := apps, ports := ports }

/-- The enhanced-features phase: with an API key, a successful outcome merges
system info, apps and vms; a failure or 15-second timeout is caught, logged
and changes nothing — in particular `enhancedFeaturesEnabled` is never
reassigned. -/
def applyEnhanced (r : Report) (apiKeyPresent : Bool) (outcome : Option Enhanced) : Report :=
  if apiKeyPresent then
    match outcome with
    | some e =>
      let r1 := match e.systemInfo with
        | some si => { r with systemInfo := some si }
        | none => r
      let r2 := if e.apps ≠ [] then { r1 with applications := r1.applications ++ e.apps } else r1
      if e.vms ≠ [] then { r2 with vms := e.vms } else r2
    | none => r
  else r

/-! ## Claim C1: container-owned endpoint absorbing a system listener -/

/-- Published container port of the C1 scenario (`web` publishes 0.0.0.0:8080). -/
def c1Port : PortEntry :=
  { source := "docker", owner := "web", protocol := "tcp", host_ip := "0.0.0.0",
    host_port := 8080, target := Target.str "80",
    container_id := some "cid1", app_id := some "cid1" }

/-- System listener of the C1 scenario: pid 1234 owns 0.0.0.0:8080. -/
def c1Listener : Listener :=
  { protocol := "tcp", host_ip := "0.0.0.0", host_port := 8080, inode := 101,
    pid := some 1234, owner := "node" }

/-- The C1 collection inputs. -/
def c1Input : RecInput :=
  { dockerPorts := [c1Port]
    systemPorts := [mkSystemPort c1Listener]
    pidToC := [(1234, ⟨"cid1", "web"⟩)]
    hostProcToC := []
    creations := [("cid1", "2024-01-01T00:00:00Z")]
    startTimes := []
    ourPort := 4999
    portrackerC := none
    apps := []
    includeSystemUdp := false }

/-- Claim C1 (code-bug evidence): at the C1 input a container publishes
`0.0.0.0:8080` and a system listener with known pid 1234 exists on the same
endpoint.  Exactly one record is emitted and it keeps the container's source
and owner, but its `pid` is `none` rather than 1234: `_getSystemPorts` stores
the listener's pid only in the `pids` array, while the merge loop and the
start-time query read the (never set) `pid` field. -/
theorem c1_system_pid_not_carried :
    reconcile c1Input =
      [{ source := "docker", owner := "web", protocol := "tcp", host_ip := "0.0.0.0",
         host_port := 8080, target := Target.str "80",
         container_id := some "cid1", app_id := some "cid1",
         pid := none, created := some "2024-01-01T00:00:00Z" }] ∧
      (mkSystemPort c1Listener).pids = [1234] ∧
      (mkSystemPort c1Listener).pid = none ∧
      psPids [mkSystemPort c1Listener] = [] := by
  decide

/-! ## Claim C2: promotion of host-networked container listeners -/

/-- System listener of the C2 (spec S3) scenario: pid 9000 of the
host-networked container `dns` owns 0.0.0.0:53/udp. -/
def c2Listener : Listener :=
  { protocol := "udp", host_ip := "0.0.0.0", host_port := 53, inode := 202,
    pid := some 9000, owner := "dnsproc" }

/-- The C2 collection inputs: no engine port bindings; `hostProcToContainerMap`
maps pid 9000 to the `dns` container. -/
def c2Input : RecInput :=
  { dockerPorts := []
    systemPorts := [mkSystemPort c2Listener]
    pidToC := []
    hostProcToC := [(9000, ⟨"cid9", "dns"⟩)]
    creations := [("cid9", "2024-02-02T00:00:00Z")]
    startTimes := []
    ourPort := 4999
    portrackerC := none
    apps := []
    includeSystemUdp := false }

/-- Claim C2 (code-bug evidence): at the C2 input the listener's pid 9000 is in
`hostProcToContainerMap`, yet the emitted record is not promoted: it keeps
`source = "system"` with no container id, owner or target, because the system
port object carries the pid only in its `pids` array and the promotion test
reads the absent `pid` field.  The spec's S3 scenario expects promotion to the
`dns` container. -/
theorem c2_hostproc_promotion_never_fires :
    reconcile c2Input =
      [{ source := "system", owner := "dnsproc", protocol := "udp", host_ip := "0.0.0.0",
         host_port := 53, target := Target.null, container_id := none, app_id := none,
         pid := none, pids := [9000] }] ∧
      alookup c2Input.hostProcToC 9000 = some ⟨"cid9", "dns"⟩ ∧
      (mkSystemPort c2Listener).pid = none := by
  decide

/-! ## Claim C3: which record a dedup-key collision keeps after seeding -/

/-- First Docker port of the C3 scenario (key `0.0.0.0:8080`). -/
def c3PortA : PortEntry :=
  { source := "docker", owner := "first", protocol := "tcp", host_ip := "0.0.0.0",
    host_port := 8080, target := Target.str "80",
    container_id := some "cidA", app_id := some "cidA" }

/-- Second Docker port of the C3 scenario (same key `0.0.0.0:8080`). -/
def c3PortB : PortEntry :=
  { source := "docker", owner := "second", protocol := "tcp", host_ip := "0.0.0.0",
    host_port := 8080, target := Target.str "81",
    container_id := some "cidB", app_id := some "cidB" }

/-- Claim C3 counterexample: two container ports share the dedup key
`0.0.0.0:8080`; after seeding, the map holds the second (later) port, not the
first-seen one as the claim states. -/
theorem c3_counterexample :
    dedupKey c3PortA = "0.0.0.0:8080" ∧ dedupKey c3PortB = "0.0.0.0:8080" ∧
      mapGet? (seedDocker [] [] [c3PortA, c3PortB]) "0.0.0.0:8080" =
        some { c3PortB with created := none } ∧
      c3PortA.owner ≠ c3PortB.owner := by
  decide

/-- JavaScript-free description helper: keep the first option when present. -/
def optOr {α : Type} : Option α → Option α → Option α
  | some a, _ => some a
  | none, b => b

theorem mapGet?_mapSet (m : PMap) (k k' : String) (v : PortEntry) :
    mapGet? (mapSet m k v) k' = if k' = k then some v else mapGet? m k' := by
  induction m with
  | nil =>
    by_cases h : k' = k
    · subst h; simp [mapSet, mapGet?]
    · rw [if_neg h]
      show mapGet? [(k, v)] k' = mapGet? [] k'
      simp only [mapGet?]
      rw [if_neg (fun hh : k = k' => h hh.symm)]
  | cons e es ih =>
    by_cases h2 : k' = k
    · subst h2
      rw [if_pos rfl]
      show mapGet? (if e.1 = k' then (k', v) :: es else e :: mapSet es k' v) k' = some v
      by_cases h1 : e.1 = k'
      · rw [if_pos h1, mapGet?, if_pos rfl]
      · rw [if_neg h1, mapGet?, if_neg h1, ih, if_pos rfl]
    · rw [if_neg h2]
      show mapGet? (if e.1 = k then (k, v) :: es else e :: mapSet es k v) k' =
        mapGet? (e :: es) k'
      by_cases h1 : e.1 = k
      · have h4 : ¬ k = k' := fun hh => h2 hh.symm
        have h5 : ¬ e.1 = k' := by rw [h1]; exact h4
        rw [if_pos h1, mapGet?, if_neg h4, mapGet?, if_neg h5]
      · rw [if_neg h1, mapGet?, mapGet?]
        by_cases h3 : e.1 = k'
        · rw [if_pos h3, if_pos h3]
        · rw [if_neg h3, if_neg h3, ih, if_neg h2]

theorem seedDocker_lookup (creations : List (String × String)) (ps : List PortEntry) :
    ∀ (m : PMap) (k : String),
      mapGet? (seedDocker creations m ps) k =
        optOr (((ps.filter (fun p => dedupKey p == k)).getLast?).map (seedPort creations))
          (mapGet? m k) := by
  induction ps with
  | nil => intro m k; rfl
  | cons p tl ih =>
    intro m k
    show mapGet? (seedDocker creations (mapSet m (dedupKey p) (seedPort creations p)) tl) k = _
    rw [ih, List.filter_cons]
    by_cases hk : dedupKey p = k
    · rw [if_pos (beq_iff_eq.mpr hk)]
      cases htl : tl.filter (fun q => dedupKey q == k) with
      | nil =>
        simp only [List.getLast?_nil, List.getLast?_singleton, Option.map_none',
          Option.map_some', optOr]
        rw [mapGet?_mapSet, if_pos hk.symm]
      | cons q l =>
        rw [List.getLast?_cons_cons]
        obtain ⟨r, hr⟩ := Option.isSome_iff_exists.mp
          ((List.getLast?_isSome (l := q :: l)).mpr (by simp))
        rw [hr]
        simp only [Option.map_some', optOr]
    · rw [if_neg (by simp [hk])]
      rw [mapGet?_mapSet, if_neg (fun hh : k = dedupKey p => hk hh.symm)]

/-- Claim C3 amended: when several container-sourced ports map to the same
dedup key, the record held after seeding is the LAST port inserted for that
key (JavaScript `Map.set` overwrites), with its `created` field attached. -/
theorem c3_amended_last_wins (creations : List (String × String))
    (ps : List PortEntry) (k : String) :
    mapGet? (seedDocker creations [] ps) k =
      Option.map (seedPort creations) ((ps.filter (fun p => dedupKey p == k)).getLast?) := by
  rw [seedDocker_lookup]
  cases h : (ps.filter (fun p => dedupKey p == k)).getLast? with
  | none => rfl
  | some p => rfl

/-! ## Claim C4: the `created` field of merged system ports -/

/-- System port of the C4 scenario, as the reconciler would receive it with a
truthy pid (77) belonging to a host-networked container. -/
def c4SysPort : PortEntry :=
  { source := "system", owner := "proc77", protocol := "tcp", host_ip := "10.0.0.1",
    host_port := 3000, pid := some 77 }

/-- The C4 collection inputs: pid 77 promotes via `hostProcToContainerMap`; the
container's creation time is known but no process start time is available. -/
def c4Input : RecInput :=
  { dockerPorts := []
    systemPorts := [c4SysPort]
    pidToC := []
    hostProcToC := [(77, ⟨"cid7", "hostnet"⟩)]
    creations := [("cid7", "2024-05-05T00:00:00Z")]
    startTimes := []
    ourPort := 4999
    portrackerC := none
    apps := []
    includeSystemUdp := false }

/-- Claim C4 counterexample: the merged system port is promoted to container
`cid7`, whose creation time is in the creation map, and no process start time
exists for pid 77 — yet the emitted record's `created` is `none`: the final
`processStartTimeMap.get(pid) || null` overwrites the container-creation
fallback instead of preserving it. -/
theorem c4_counterexample :
    reconcile c4Input =
      [{ source := "docker", owner := "hostnet", protocol := "tcp", host_ip := "10.0.0.1",
         host_port := 3000, target := Target.num 3000,
         container_id := some "cid7", app_id := some "cid7",
         pid := some 77, created := none }] ∧
      alookup c4Input.creations "cid7" = some "2024-05-05T00:00:00Z" ∧
      alookup c4Input.startTimes 77 = none := by
  decide

/-- Claim C4 amended: for a system port with a truthy pid, the merge step sets
`created` to `processStartTimes[pid]` when that entry is truthy and to `null`
otherwise — even for promoted ports, whose container-creation fallback is
overwritten by this final assignment. -/
theorem c4_amended_created_overwritten (pidToC hostProcToC : List (Nat × CInfo))
    (creations : List (String × String)) (startTimes : List (Nat × String))
    (p : PortEntry) (n : Nat) (hp : p.pid = some n) (hn : n ≠ 0) :
    (mergeSystemPort pidToC hostProcToC creations startTimes p).created =
      orNullS (alookup startTimes n) := by
  unfold mergeSystemPort
  rw [hp]
  simp only [if_neg hn]

/-- Witness for the amended C4 at the concrete C4 scenario. -/
theorem c4_amended_witness :
    (mergeSystemPort [] [(77, ⟨"cid7", "hostnet"⟩)] [("cid7", "2024-05-05T00:00:00Z")] []
        c4SysPort).created = orNullS (alookup ([] : List (Nat × String)) 77) :=
  c4_amended_created_overwritten [] [(77, ⟨"cid7", "hostnet"⟩)]
    [("cid7", "2024-05-05T00:00:00Z")] [] c4SysPort 77 rfl (by decide)

/-! ## Claim C5: determinism and ordering of the emitted list -/

/-- Byte-wise lexicographic strict order on strings (the natural order the
spec's sort key refers to). -/
def strLtB : List Char → List Char → Bool
  | [], [] => false
  | [], _ :: _ => true
  | _ :: _, [] => false
  | a :: as, b :: bs =>
    if a.toNat < b.toNat then true
    else if b.toNat < a.toNat then false
    else strLtB as bs

/-- Strict lexicographic order on strings. -/
def sLtB (s t : String) : Bool := strLtB s.data t.data

/-- The spec's emission sort key: compare by
`(host_ip, host_port, container_id, protocol)` lexicographically. -/
def tupleLeB (a b : PortEntry) : Bool :=
  if a.host_ip ≠ b.host_ip then sLtB a.host_ip b.host_ip
  else if a.host_port ≠ b.host_port then Nat.blt a.host_port b.host_port
  else if a.container_id.getD "" ≠ b.container_id.getD "" then
    sLtB (a.container_id.getD "") (b.container_id.getD "")
  else sLtB a.protocol b.protocol || a.protocol == b.protocol

/-- A list is sorted by the spec's emission key. -/
def sortedByTupleB : List PortEntry → Bool
  | [] => true
  | [_] => true
  | a :: b :: t => tupleLeB a b && sortedByTupleB (b :: t)

/-- First Docker port of the C5 scenario (inserted first, higher port number). -/
def c5PortHigh : PortEntry :=
  { source := "docker", owner := "appA", protocol := "tcp", host_ip := "0.0.0.0",
    host_port := 9000, target := Target.str "80",
    container_id := some "cidA", app_id := some "cidA" }

/-- Second Docker port of the C5 scenario (inserted second, lower port number). -/
def c5PortLow : PortEntry :=
  { source := "docker", owner := "appB", protocol := "tcp", host_ip := "0.0.0.0",
    host_port := 80, target := Target.str "80",
    container_id := some "cidB", app_id := some "cidB" }

/-- The C5 collection inputs. -/
def c5Input : RecInput :=
  { dockerPorts := [c5PortHigh, c5PortLow]
    systemPorts := []
    pidToC := []
    hostProcToC := []
    creations := []
    startTimes := []
    ourPort := 4999
    portrackerC := none
    apps := []
    includeSystemUdp := false }

/-- Claim C5 counterexample: the reconciler emits the records in dedup-map
insertion order — port 9000 before port 80 on the same host address — so the
output is not sorted by `(host_ip, host_port, container_id, protocol)`. -/
theorem c5_counterexample :
    (reconcile c5Input).map (fun p => p.host_port) = [9000, 80] ∧
      sortedByTupleB (reconcile c5Input) = false := by
  decide

/-- Claim C5 amended: the reconciler is a function of its inputs, so two
identical collection inputs yield the identical emitted list; but no sort is
applied — the order is the dedup map's insertion order. -/
theorem c5_amended_deterministic (i j : RecInput) (h : i = j) :
    reconcile i = reconcile j := by
  rw [h]

/-- Witness for the amended C5 at the concrete C5 input. -/
theorem c5_amended_witness : reconcile c5Input = reconcile c5Input :=
  c5_amended_deterministic c5Input c5Input rfl

/-! ## Claim C8: a failing container inspection during port extraction -/

/-- Host binding of the healthy C8 container. -/
def c8Binding : HostBinding := { hostIp := some "0.0.0.0", hostPort := 8080 }

/-- Port-bindings entry of the healthy C8 container (`80/tcp` published). -/
def c8PB : PBEntry := { containerPort := 80, protocol := "tcp", bindings := some [c8Binding] }

/-- Healthy container of the C8 scenario, publishing `0.0.0.0:8080 → 80/tcp`. -/
def c8Ok : ContainerIn :=
  { id := "aaaabbbbccccdddd"
    names := ["web"]
    listPortsNonEmpty := true
    rawInspect := Except.ok [c8PB]
    cfgInspect := Except.ok [] }

/-- Container of the C8 scenario whose inspection fails. -/
def c8Bad : ContainerIn :=
  { id := "eeeeffffgggghhhh"
    names := ["db"]
    listPortsNonEmpty := false
    rawInspect := Except.error "inspect failed"
    cfgInspect := Except.ok [] }

/-- The record `_getDockerPorts` produces for the healthy C8 container alone. -/
def c8OkRecord : PortEntry :=
  { source := "docker", owner := "web", protocol := "tcp", host_ip := "0.0.0.0",
    host_port := 8080, target := Target.str "80",
    container_id := some "aaaabbbbccccdddd", app_id := some "aaaabbbbccccdddd" }

/-- Claim C8 counterexample: with the healthy container alone the extraction
returns its record, but as soon as one container's inspection fails the whole
extraction returns the empty list — the healthy container's ports are lost,
instead of only the failing container's metadata being omitted. -/
theorem c8_counterexample :
    getDockerPorts [c8Ok] = [c8OkRecord] ∧ getDockerPorts [c8Ok, c8Bad] = [] := by
  decide

theorem getDockerPortsGo_error (cs : List ContainerIn) (c : ContainerIn)
    (hc : c ∈ cs) (e : String) (he : processContainer c = Except.error e) :
    ∀ acc, getDockerPortsGo acc cs = [] := by
  induction cs with
  | nil => cases hc
  | cons d ds ih =>
    intro acc
    show (match processContainer d with
      | Except.error _ => ([] : List PortEntry)
      | Except.ok rs => getDockerPortsGo (acc ++ rs) ds) = []
    rcases List.mem_cons.mp hc with h1 | h2
    · rw [h1] at he
      rw [he]
    · cases hproc : processContainer d with
      | error _ => rfl
      | ok rs => exact ih h2 (acc ++ rs)

/-- Claim C8 amended: when any container's inspection fails, `_getDockerPorts`
logs the error and returns the empty list — the port metadata of every
container is lost for that pass, not only the failing one's (the per-item
tolerance the spec describes exists in the container-list collection, not in
the port extraction). -/
theorem c8_amended_extraction_empties (cs : List ContainerIn) (c : ContainerIn)
    (hc : c ∈ cs) (e : String) (he : processContainer c = Except.error e) :
    getDockerPorts cs = [] :=
  getDockerPortsGo_error cs c hc e he []

/-- Witness for the amended C8 at the concrete two-container scenario. -/
theorem c8_amended_witness : getDockerPorts [c8Ok, c8Bad] = [] :=
  c8_amended_extraction_empties [c8Ok, c8Bad] c8Bad
    (List.Mem.tail _ (List.Mem.head _)) "inspect failed" rfl

/-! ## Claim C9: failure of the enhanced-features phase -/

/-- Port record of the C9 scenario (core data already collected). -/
def c9Port : PortEntry :=
  { source := "system", owner := "sshd", protocol := "tcp", host_ip := "0.0.0.0",
    host_port := 22, pids := [500] }

/-- Application of the C9 scenario. -/
def c9App : AppInfo := { id := "cidZ", name := "web" }

/-- Claim C9 counterexample: with an API key present and the enhanced phase
failing (or timing out), `collect` still returns the report with the container
and system port data — but `enhancedFeaturesEnabled` stays `true`, because it
is set once from `!!process.env.TRUENAS_API_KEY` and never reset on failure;
the claim's required `false` does not hold. -/
theorem c9_counterexample :
    (applyEnhanced (withCoreData (initResults true) [c9App] [c9Port]) true none).ports =
        [c9Port] ∧
      (applyEnhanced (withCoreData (initResults true) [c9App] [c9Port]) true
            none).enhancedFeaturesEnabled = true := by
  constructor
  · rfl
  · rfl

/-- Claim C9 amended: when the enhanced-features phase fails entirely or hits
its 15-second deadline, `collect` still returns the structurally valid report
with the already-collected applications and ports unchanged, and
`enhancedFeaturesEnabled` keeps reflecting only whether an API key is present
(it is not set to `false`). -/
theorem c9_amended_report_intact (apps : List AppInfo) (ports : List PortEntry) (k : Bool) :
    (applyEnhanced (withCoreData (initResults k) apps ports) k none).ports = ports ∧
      (applyEnhanced (withCoreData (initResults k) apps ports) k none).applications = apps ∧
      (applyEnhanced (withCoreData (initResults k) apps ports) k
          none).enhancedFeaturesEnabled = k := by
  cases k <;> exact ⟨rfl, rfl, rfl⟩

/-! ## Claim C6: UDP filtering against the known-UDP allow-list -/

theorem enhance_fields (apps : List AppInfo) (p : PortEntry) :
    (enhanceKnownPort apps p).host_ip = p.host_ip ∧
      (enhanceKnownPort apps p).host_port = p.host_port ∧
      (enhanceKnownPort apps p).internal = p.internal ∧
      (enhanceKnownPort apps p).protocol = p.protocol := by
  unfold enhanceKnownPort
  split
  · exact ⟨rfl, rfl, rfl, rfl⟩
  · split_ifs
    · split
      · exact ⟨rfl, rfl, rfl, rfl⟩
      · exact ⟨rfl, rfl, rfl, rfl⟩
      · exact ⟨rfl, rfl, rfl, rfl⟩
    · exact ⟨rfl, rfl, rfl, rfl⟩

theorem filterStep_fields (u : Bool) (apps : List AppInfo) (p : PortEntry) :
    (filterStep u apps p).2.host_ip = p.host_ip ∧
      (filterStep u apps p).2.host_port = p.host_port ∧
      (filterStep u apps p).2.internal = p.internal ∧
      (filterStep u apps p).2.protocol = p.protocol := by
  have he := enhance_fields apps p
  unfold filterStep
  split_ifs <;> first
    | exact ⟨rfl, rfl, rfl, rfl⟩
    | exact he

theorem alookup_isSome_mem {α : Type} (l : List (Nat × α)) (n : Nat)
    (h : (alookup l n).isSome = true) : n ∈ l.map Prod.fst := by
  induction l with
  | nil => simp [alookup] at h
  | cons e es ih =>
    rw [List.map_cons]
    cases hb : e.1 == n with
    | true => exact List.mem_cons.mpr (Or.inl (beq_iff_eq.mp hb).symm)
    | false =>
      refine List.mem_cons.mpr (Or.inr (ih ?_))
      unfold alookup at h
      rw [hb] at h
      exact h

theorem important_udp_sub (n : Nat)
    (h : optAny (alookup importantUdpPorts n) (fun s => s != "") = true) :
    n ∈ specUdpAllowList := by
  have hs : (alookup importantUdpPorts n).isSome = true := by
    cases ho : alookup importantUdpPorts n with
    | none => rw [ho] at h; exact absurd h (by decide)
    | some s => rfl
  have hm := alookup_isSome_mem importantUdpPorts n hs
  have hm2 : n ∈ [51820, 51822, 500, 4500, 1194, 1198, 53, 67, 68] := by
    simpa [importantUdpPorts] using hm
  fin_cases hm2 <;> decide

theorem filterStep_udp_out (u : Bool) (apps : List AppInfo) (v q : PortEntry)
    (hstep : filterStep u apps v = (true, q)) (hvp : v.protocol = "udp") :
    q.source = "docker" ∨ q.host_port ∈ specUdpAllowList ∨ u = true := by
  unfold filterStep at hstep
  by_cases h1 : v.protocol = "tcp"
  · rw [hvp] at h1
    exact absurd h1 (by decide)
  · rw [if_neg h1] at hstep
    by_cases h2 : v.source = "docker"
    · rw [if_pos h2] at hstep
      rw [Prod.mk.injEq] at hstep
      exact Or.inl (hstep.2 ▸ h2)
    · rw [if_neg h2] at hstep
      by_cases h3 : v.protocol = "udp" ∧
          optAny (alookup importantUdpPorts v.host_port) (fun s => s != "") = true
      · rw [if_pos h3] at hstep
        rw [Prod.mk.injEq] at hstep
        refine Or.inr (Or.inl ?_)
        rw [← hstep.2]
        have hp : (if (v.source == "system") && !(strTruthy v.container_id) then
            enhanceKnownPort apps v else v).host_port = v.host_port := by
          split_ifs with h5
          · exact (enhance_fields apps v).2.1
          · rfl
        rw [hp]
        exact important_udp_sub v.host_port h3.2
      · rw [if_neg h3] at hstep
        by_cases h4 : v.protocol = "udp" ∧ v.source = "system"
        · rw [if_pos h4] at hstep
          rw [Prod.mk.injEq] at hstep
          exact Or.inr (Or.inr hstep.1)
        · rw [if_neg h4] at hstep
          rw [Prod.mk.injEq] at hstep
          exact absurd hstep.1 (by decide)

/-- Claim C6: in a collection with `includeSystemUdp = false`, every UDP
record in the final output is either container-sourced (`source = "docker"`;
the spec's `source=container`) or listens on a port of the spec's known-UDP
allow-list — the collector's own `importantUdpPorts` registry is a strict
subset of that list, so the filter can only keep allow-listed system UDP
ports. -/
theorem c6_udp_allowlist (i : RecInput) (hoff : i.includeSystemUdp = false)
    (r : PortEntry) (hr : r ∈ reconcile i) (hudp : r.protocol = "udp") :
    r.source = "docker" ∨ r.host_port ∈ specUdpAllowList := by
  unfold reconcile at hr
  rcases List.mem_filterMap.mp hr with ⟨pr, hpr, hsome⟩
  rcases pr with ⟨keep, q⟩
  cases keep with
  | false => exact absurd hsome (by simp)
  | true =>
    simp only [if_pos] at hsome
    have hq : normalizePortEntry q = r := Option.some.inj hsome
    rcases List.mem_map.mp hpr with ⟨v, hv, hstep⟩
    have hvp : v.protocol = "udp" := by
      have h1 : (filterStep i.includeSystemUdp i.apps v).2 = q := by rw [hstep]
      have h2 : q.protocol = v.protocol := by
        rw [← h1]; exact (filterStep_fields i.includeSystemUdp i.apps v).2.2.2
      have h3 : r.protocol = q.protocol := by rw [← hq]; rfl
      rw [← h2, ← h3, hudp]
    rcases filterStep_udp_out i.includeSystemUdp i.apps v q hstep hvp with h | h | h
    · refine Or.inl ?_
      rw [← hq]
      exact h
    · refine Or.inr ?_
      rw [← hq]
      exact h
    · rw [hoff] at h
      exact absurd h (by decide)

/-- Docker UDP port of the C6 witness scenario (5353 is not on the allow-list,
so the record survives only through being container-sourced). -/
def c6Port : PortEntry :=
  { source := "docker", owner := "mdns", protocol := "udp", host_ip := "0.0.0.0",
    host_port := 5353, target := Target.str "5353",
    container_id := some "cid6", app_id := some "cid6" }

/-- The C6 witness collection inputs. -/
def c6Input : RecInput :=
  { dockerPorts := [c6Port]
    systemPorts := []
    pidToC := []
    hostProcToC := []
    creations := []
    startTimes := []
    ourPort := 4999
    portrackerC := none
    apps := []
    includeSystemUdp := false }

/-- Witness for C6 at the concrete mdns scenario. -/
theorem c6_witness : c6Port.source = "docker" ∨ c6Port.host_port ∈ specUdpAllowList :=
  c6_udp_allowlist c6Input rfl c6Port (by decide) (by decide)

/-! ## Claim C10: uniqueness of non-internal records by `(host_ip, host_port)` -/

/-- The dedup map never stores two entries under one key. -/
def keysNodup (m : PMap) : Prop := (m.map Prod.fst).Nodup

/-- Map invariant: a non-internal record is stored under its
`"<host_ip>:<host_port>"` key, and no stored record has the raw `*` address. -/
def GoodEntry (e : String × PortEntry) : Prop :=
  (e.2.internal = false → e.1 = sysKey e.2) ∧ e.2.host_ip ≠ "*"

/-- Combined invariant of the dedup map. -/
def GoodMap (m : PMap) : Prop := keysNodup m ∧ ∀ e ∈ m, GoodEntry e

theorem mem_keys_mapSet (k : String) (v : PortEntry) (a : String) :
    ∀ m : PMap, a ∈ (mapSet m k v).map Prod.fst → a ∈ m.map Prod.fst ∨ a = k := by
  intro m
  induction m with
  | nil =>
    intro ha
    simp only [mapSet, List.map_cons, List.map_nil, List.mem_singleton] at ha
    exact Or.inr ha
  | cons e es ih =>
    intro ha
    by_cases h1 : e.1 = k
    · simp only [mapSet, if_pos h1] at ha
      simp only [List.map_cons, List.mem_cons] at ha
      rcases ha with h | h
      · exact Or.inr h
      · exact Or.inl (List.mem_cons.mpr (Or.inr h))
    · simp only [mapSet, if_neg h1] at ha
      simp only [List.map_cons, List.mem_cons] at ha
      rcases ha with h | h
      · exact Or.inl (List.mem_cons.mpr (Or.inl h))
      · rcases ih h with h2 | h2
        · exact Or.inl (List.mem_cons.mpr (Or.inr h2))
        · exact Or.inr h2

theorem goodMap_mapSet (k : String) (v : PortEntry) :
    ∀ m : PMap, GoodMap m → GoodEntry (k, v) → GoodMap (mapSet m k v) := by
  intro m
  induction m with
  | nil =>
    intro _ hv
    refine ⟨List.nodup_singleton k, ?_⟩
    intro e he
    rw [List.mem_singleton.mp he]
    exact hv
  | cons e es ih =>
    intro hm hv
    obtain ⟨hnd, hall⟩ := hm
    have hnd' : (e.1 :: es.map Prod.fst).Nodup := hnd
    obtain ⟨hne, hnes⟩ := List.nodup_cons.mp hnd'
    by_cases h1 : e.1 = k
    · simp only [mapSet, if_pos h1]
      constructor
      · show (k :: es.map Prod.fst).Nodup
        rw [← h1]
        exact hnd'
      · intro x hx
        rcases List.mem_cons.mp hx with h | h
        · rw [h]; exact hv
        · exact hall x (List.mem_cons.mpr (Or.inr h))
    · simp only [mapSet, if_neg h1]
      have hges : GoodMap es := ⟨hnes, fun x hx => hall x (List.mem_cons.mpr (Or.inr hx))⟩
      have hrec := ih hges hv
      constructor
      · show (e.1 :: (mapSet es k v).map Prod.fst).Nodup
        refine List.nodup_cons.mpr ⟨?_, hrec.1⟩
        intro hmem
        rcases mem_keys_mapSet k v e.1 es hmem with h | h
        · exact hne h
        · exact h1 h
      · intro x hx
        rcases List.mem_cons.mp hx with h | h
        · rw [h]; exact hall e (List.mem_cons.mpr (Or.inl rfl))
        · exact hrec.2 x h

theorem keys_mapUpdate (k : String) (f : PortEntry → PortEntry) :
    ∀ m : PMap, (mapUpdate m k f).map Prod.fst = m.map Prod.fst := by
  intro m
  induction m with
  | nil => rfl
  | cons e es ih =>
    by_cases h1 : e.1 = k
    · simp only [mapUpdate, if_pos h1, List.map_cons]
    · simp only [mapUpdate, if_neg h1, List.map_cons, ih]

theorem mem_mapUpdate (k : String) (f : PortEntry → PortEntry) (x : String × PortEntry) :
    ∀ m : PMap, x ∈ mapUpdate m k f → x ∈ m ∨ ∃ y, y ∈ m ∧ x = (y.1, f y.2) := by
  intro m
  induction m with
  | nil => intro hx; cases hx
  | cons e es ih =>
    intro hx
    by_cases h1 : e.1 = k
    · simp only [mapUpdate, if_pos h1] at hx
      rcases List.mem_cons.mp hx with h | h
      · exact Or.inr ⟨e, List.mem_cons.mpr (Or.inl rfl), h⟩
      · exact Or.inl (List.mem_cons.mpr (Or.inr h))
    · simp only [mapUpdate, if_neg h1] at hx
      rcases List.mem_cons.mp hx with h | h
      · exact Or.inl (List.mem_cons.mpr (Or.inl h))
      · rcases ih h with h2 | ⟨y, hy, hxy⟩
        · exact Or.inl (List.mem_cons.mpr (Or.inr h2))
        · exact Or.inr ⟨y, List.mem_cons.mpr (Or.inr hy), hxy⟩

theorem goodMap_mapUpdate (k : String) (f : PortEntry → PortEntry)
    (hf : ∀ k' v, GoodEntry (k', v) → GoodEntry (k', f v))
    (m : PMap) (hm : GoodMap m) : GoodMap (mapUpdate m k f) := by
  obtain ⟨hnd, hall⟩ := hm
  constructor
  · show ((mapUpdate m k f).map Prod.fst).Nodup
    rw [keys_mapUpdate]
    exact hnd
  · intro x hx
    rcases mem_mapUpdate k f x m hx with h | ⟨y, hy, hxy⟩
    · exact hall x h
    · rw [hxy]
      exact hf y.1 y.2 (hall y hy)

theorem goodMap_mapAll (g : PortEntry → PortEntry)
    (hg : ∀ k v, GoodEntry (k, v) → GoodEntry (k, g v)) (m : PMap) (hm : GoodMap m) :
    GoodMap (m.map (fun e => (e.1, g e.2))) := by
  obtain ⟨hnd, hall⟩ := hm
  constructor
  · show ((m.map (fun e => (e.1, g e.2))).map Prod.fst).Nodup
    rw [List.map_map]
    exact hnd
  · intro x hx
    rcases List.mem_map.mp hx with ⟨y, hy, hxy⟩
    rw [← hxy]
    exact hg y.1 y.2 (hall y hy)

theorem goodEntry_of_fields (k : String) (v w : PortEntry)
    (hip : w.host_ip = v.host_ip) (hport : w.host_port = v.host_port)
    (hint : w.internal = v.internal) (hg : GoodEntry (k, v)) : GoodEntry (k, w) := by
  obtain ⟨h1, h2⟩ := hg
  constructor
  · intro h
    rw [hint] at h
    rw [sysKey, hip, hport]
    exact h1 h
  · rw [hip]
    exact h2

theorem mergeSystemPort_fields (pidToC hostProcToC : List (Nat × CInfo))
    (creations : List (String × String)) (startTimes : List (Nat × String))
    (p : PortEntry) :
    (mergeSystemPort pidToC hostProcToC creations startTimes p).host_ip = p.host_ip ∧
      (mergeSystemPort pidToC hostProcToC creations startTimes p).host_port = p.host_port ∧
      (mergeSystemPort pidToC hostProcToC creations startTimes p).internal = p.internal := by
  refine ⟨?_, ?_, ?_⟩ <;>
    · unfold mergeSystemPort
      dsimp only
      repeat' split
      all_goals rfl

theorem selfAttrOne_fields (ourPort : Nat) (pc : Option CInfo)
    (creations : List (String × String)) (p : PortEntry) :
    (selfAttrOne ourPort pc creations p).host_ip = p.host_ip ∧
      (selfAttrOne ourPort pc creations p).host_port = p.host_port ∧
      (selfAttrOne ourPort pc creations p).internal = p.internal := by
  refine ⟨?_, ?_, ?_⟩ <;>
    · unfold selfAttrOne
      try dsimp only
      repeat' split
      all_goals rfl

theorem goodMap_seedDocker (creations : List (String × String)) :
    ∀ (ps : List PortEntry) (m : PMap), (∀ p ∈ ps, p.host_ip ≠ "*") → GoodMap m →
      GoodMap (seedDocker creations m ps) := by
  intro ps
  induction ps with
  | nil => intro m _ hm; exact hm
  | cons p tl ih =>
    intro m h hm
    show GoodMap (seedDocker creations (mapSet m (dedupKey p) (seedPort creations p)) tl)
    refine ih _ (fun q hq => h q (List.mem_cons.mpr (Or.inr hq))) ?_
    refine goodMap_mapSet _ _ m hm ⟨?_, ?_⟩
    · intro hint
      have hint' : p.internal = false := hint
      show dedupKey p = sysKey (seedPort creations p)
      rw [dedupKey, if_neg (by rw [hint']; exact Bool.false_ne_true)]
      rfl
    · exact h p (List.mem_cons.mpr (Or.inl rfl))

theorem goodMap_mergeSystem (pidToC hostProcToC : List (Nat × CInfo))
    (creations : List (String × String)) (startTimes : List (Nat × String)) :
    ∀ (ps : List PortEntry) (m : PMap), (∀ p ∈ ps, p.host_ip ≠ "*") → GoodMap m →
      GoodMap (mergeSystem pidToC hostProcToC creations startTimes m ps) := by
  intro ps
  induction ps with
  | nil => intro m _ hm; exact hm
  | cons p tl ih =>
    intro m h hm
    show GoodMap (mergeSystem pidToC hostProcToC creations startTimes
      (if mapHas m (sysKey p) then
        mapUpdate m (sysKey p) (fun ex => if pidTruthy ex.pid then ex else { ex with pid := p.pid })
      else mapSet m (sysKey p) (mergeSystemPort pidToC hostProcToC creations startTimes p)) tl)
    refine ih _ (fun q hq => h q (List.mem_cons.mpr (Or.inr hq))) ?_
    by_cases hh : mapHas m (sysKey p) = true
    · rw [if_pos hh]
      refine goodMap_mapUpdate _ _ ?_ m hm
      intro k' v hgv
      refine goodEntry_of_fields k' v _ ?_ ?_ ?_ hgv <;> split_ifs <;> rfl
    · rw [if_neg hh]
      have hf := mergeSystemPort_fields pidToC hostProcToC creations startTimes p
      refine goodMap_mapSet _ _ m hm ⟨?_, ?_⟩
      · intro _
        show sysKey p = sysKey (mergeSystemPort pidToC hostProcToC creations startTimes p)
        simp only [sysKey]
        rw [hf.1, hf.2.1]
      · show (mergeSystemPort pidToC hostProcToC creations startTimes p).host_ip ≠ "*"
        rw [hf.1]
        exact h p (List.mem_cons.mpr (Or.inl rfl))

theorem goodMap_finalMap (i : RecInput)
    (hd : ∀ p ∈ i.dockerPorts, p.host_ip ≠ "*")
    (hs : ∀ p ∈ i.systemPorts, p.host_ip ≠ "*") : GoodMap (finalMap i) := by
  unfold finalMap selfAttribute
  refine goodMap_mapAll _ ?_ _ ?_
  · intro k v hg
    have hf := selfAttrOne_fields i.ourPort i.portrackerC i.creations v
    exact goodEntry_of_fields k v _ hf.1 hf.2.1 hf.2.2 hg
  · refine goodMap_mergeSystem _ _ _ _ _ _ hs ?_
    refine goodMap_seedDocker _ _ _ hd ?_
    exact ⟨List.nodup_nil, fun e he => absurd he (List.not_mem_nil e)⟩

theorem keysNodup_mem_unique (k : String) (v w : PortEntry) :
    ∀ m : PMap, keysNodup m → (k, v) ∈ m → (k, w) ∈ m → v = w := by
  intro m
  induction m with
  | nil => intro _ hv _; cases hv
  | cons e es ih =>
    intro hnd hv hw
    have hnd' : (e.1 :: es.map Prod.fst).Nodup := hnd
    obtain ⟨hne, hnes⟩ := List.nodup_cons.mp hnd'
    rcases List.mem_cons.mp hv with h1 | h1 <;> rcases List.mem_cons.mp hw with h2 | h2
    · have h3 := h1.trans h2.symm
      exact (Prod.mk.injEq k v k w ▸ h3).2
    · exfalso
      apply hne
      rw [← h1]
      exact List.mem_map.mpr ⟨(k, w), h2, rfl⟩
    · exfalso
      apply hne
      rw [← h2]
      exact List.mem_map.mpr ⟨(k, v), h1, rfl⟩
    · exact ih hnes h1 h2

theorem reconcile_mem_structure (i : RecInput) (r : PortEntry) (hr : r ∈ reconcile i) :
    ∃ e, e ∈ finalMap i ∧ (filterStep i.includeSystemUdp i.apps e.2).1 = true ∧
      r = normalizePortEntry (filterStep i.includeSystemUdp i.apps e.2).2 := by
  unfold reconcile at hr
  rcases List.mem_filterMap.mp hr with ⟨pr, hpr, hsome⟩
  rcases List.mem_map.mp hpr with ⟨v, hv, hstep⟩
  rcases List.mem_map.mp hv with ⟨e, he, hev⟩
  rcases pr with ⟨keep, q⟩
  cases keep with
  | false => exact absurd hsome (by simp)
  | true =>
    refine ⟨e, he, ?_, ?_⟩
    · rw [hev, hstep]
    · have hq : normalizePortEntry q = r := Option.some.inj hsome
      rw [hev, hstep, ← hq]

/-- Claim C10: within one collection whose source records never carry the raw
`*` address (the extractors normalize it away before the reconciler runs),
any two non-internal emitted records agreeing on `(host_ip, host_port)` are
the same record: the dedup key omits the protocol, so a TCP and a UDP
listener on the same endpoint collapse into a single emitted record. -/
theorem c10_nonInternal_unique_by_ip_port (i : RecInput)
    (hd : ∀ p ∈ i.dockerPorts, p.host_ip ≠ "*")
    (hs : ∀ p ∈ i.systemPorts, p.host_ip ≠ "*")
    (r1 r2 : PortEntry) (h1 : r1 ∈ reconcile i) (h2 : r2 ∈ reconcile i)
    (hi1 : r1.internal = false) (hi2 : r2.internal = false)
    (hip : r1.host_ip = r2.host_ip) (hport : r1.host_port = r2.host_port) :
    r1 = r2 := by
  obtain ⟨hnd, hall⟩ := goodMap_finalMap i hd hs
  rcases reconcile_mem_structure i r1 h1 with ⟨e1, he1, hk1, hr1⟩
  rcases reconcile_mem_structure i r2 h2 with ⟨e2, he2, hk2, hr2⟩
  obtain ⟨hg1, hstar1⟩ := hall e1 he1
  obtain ⟨hg2, hstar2⟩ := hall e2 he2
  have hf1 := filterStep_fields i.includeSystemUdp i.apps e1.2
  have hf2 := filterStep_fields i.includeSystemUdp i.apps e2.2
  have hint1 : e1.2.internal = false := by
    rw [← hf1.2.2.1]
    show (normalizePortEntry (filterStep i.includeSystemUdp i.apps e1.2).2).internal = false
    rw [← hr1]
    exact hi1
  have hint2 : e2.2.internal = false := by
    rw [← hf2.2.2.1]
    show (normalizePortEntry (filterStep i.includeSystemUdp i.apps e2.2).2).internal = false
    rw [← hr2]
    exact hi2
  have hip1 : r1.host_ip = e1.2.host_ip := by
    rw [hr1]
    show (if (filterStep i.includeSystemUdp i.apps e1.2).2.host_ip = "*" then "0.0.0.0"
      else (filterStep i.includeSystemUdp i.apps e1.2).2.host_ip) = e1.2.host_ip
    rw [hf1.1, if_neg hstar1]
  have hip2 : r2.host_ip = e2.2.host_ip := by
    rw [hr2]
    show (if (filterStep i.includeSystemUdp i.apps e2.2).2.host_ip = "*" then "0.0.0.0"
      else (filterStep i.includeSystemUdp i.apps e2.2).2.host_ip) = e2.2.host_ip
    rw [hf2.1, if_neg hstar2]
  have hpt1 : r1.host_port = e1.2.host_port := by
    rw [hr1]
    show (filterStep i.includeSystemUdp i.apps e1.2).2.host_port = e1.2.host_port
    exact hf1.2.1
  have hpt2 : r2.host_port = e2.2.host_port := by
    rw [hr2]
    show (filterStep i.includeSystemUdp i.apps e2.2).2.host_port = e2.2.host_port
    exact hf2.2.1
  have hkey : e1.1 = e2.1 := by
    rw [hg1 hint1, hg2 hint2, sysKey, sysKey, ← hip1, ← hpt1, ← hip2, ← hpt2, hip, hport]
  have hval : e1.2 = e2.2 := by
    refine keysNodup_mem_unique e1.1 e1.2 e2.2 (finalMap i) hnd ?_ ?_
    · exact he1
    · rw [hkey]
      exact he2
  rw [hr1, hr2, hval]

/-- Docker TCP port of the C10 witness scenario (53/tcp published). -/
def c10Docker : PortEntry :=
  { source := "docker", owner := "dns", protocol := "tcp", host_ip := "0.0.0.0",
    host_port := 53, target := Target.str "53",
    container_id := some "cidD", app_id := some "cidD" }

/-- System UDP listener entry of the C10 witness scenario on the same endpoint. -/
def c10Sys : PortEntry :=
  { source := "system", owner := "resolver", protocol := "udp", host_ip := "0.0.0.0",
    host_port := 53, pids := [321] }

/-- The C10 witness collection inputs: a TCP container port and a UDP system
listener share `(0.0.0.0, 53)`. -/
def c10Input : RecInput :=
  { dockerPorts := [c10Docker]
    systemPorts := [c10Sys]
    pidToC := []
    hostProcToC := []
    creations := []
    startTimes := []
    ourPort := 4999
    portrackerC := none
    apps := []
    includeSystemUdp := false }

/-- Witness for C10: both views of `(0.0.0.0, 53)` collapse to the single
emitted record. -/
theorem c10_witness : c10Docker = c10Docker :=
  c10_nonInternal_unique_by_ip_port c10Input (by decide) (by decide)
    c10Docker c10Docker (by decide) (by decide) rfl rfl rfl rfl

end Portracker
